import Mathlib

/-!
Shallow embedding of the PASS-NICE verification session (src/pass_nice/PASS_NICE.py).

Network I/O is modelled by explicit environment records carrying, per HTTP call,
whether the transport succeeded and the parsed content of the response
(regex extraction over opaque HTML is abstracted to `Option String` parse
results supplied by the environment). Each operation is a pure function from
the session state, its arguments and the environment to a triple
`(outcome, state after the call, list of network requests performed)`, so that
exceptions, partial state mutation and the presence or absence of network
steps are all visible.
-/

namespace PassNice

/-- Errors raised by the library (src/pass_nice/exceptions.py), plus the two
kinds of uncaught Python exceptions the code can produce: `attributeError`
for reading an instance attribute that was never assigned, and `pyError` for
an uncaught exception such as a JSON decode failure outside a try block.
Network errors keep only their stage code; the interpolated exception text is
environmental and dropped. -/
inductive PassErr where
  | sessionNotInitialized (msg : String)
  | sessionAlreadyInitialized
  | validation (msg : String)
  | network (code : Nat)
  | parse (msg : String)
  | attributeError (attr : String)
  | pyError (what : String)
deriving DecidableEq, Repr

/-- True for the two session-state precondition errors
(SessionNotInitializedError, SessionAlreadyInitializedError). -/
def PassErr.isSessionState : PassErr → Bool
  | .sessionNotInitialized _ => true
  | .sessionAlreadyInitialized => true
  | _ => false

/-- Modelled from the spec: the `Result` envelope (src/pass_nice/types.py is
not in the sources): success flag, human-readable message, optional payload. -/
structure Result (α : Type) where
  success : Bool
  message : String
  data : Option α
deriving DecidableEq, Repr

/-- Modelled from the spec: `VerificationData` (src/pass_nice/types.py is not
in the sources): name, birthdate (a calendar date; modelled by the source
string handed to `datetime.strptime`), gender category, phone number, carrier
code. -/
structure VerificationData where
  name : String
  birthdate : String
  gender : String
  phone_number : String
  mobile_carrier : String
deriving DecidableEq, Repr

/-- Image bytes, abstracted. -/
abbrev Bytes := List Nat

/-- The network endpoints the session can hit, in the order the code hits
them; used to record which requests an operation performed. -/
inductive NetReq where
  | getLanding
  | postCheckplus
  | postMenu
  | postMethod
  | postCert
  | getCaptcha
  | postSmsProc
  | postPushProc
  | postQrCert
  | getQrImage
  | postSmsConfirm
  | postPushCheck
  | postConfirmProc
  | postResultSend
  | getDecrypt
deriving DecidableEq, Repr

/-- Mutable state of a `PASS_NICE` instance. `Option` fields with value
`none` stand for instance attributes that have never been assigned
(`hasattr` is false; reading them raises `AttributeError`). -/
structure SessionState where
  cell_corp : String
  is_initialized : Bool
  is_verify_sent : Bool
  auth_type : String
  service_info : Option String
  cert_info_hash : Option String
  captcha_version : Option String
  verification_data : Option VerificationData
deriving DecidableEq, Repr

/-- Constructor `__init__`: fresh session; `_AUTH_TYPE` is the empty string, the token
attributes are unset, both flags false. -/
def mkSession (cell_corp : String) : SessionState :=
  ⟨cell_corp, false, false, "", none, none, none, none⟩

/-- The `auth_type` literal accepted by `init_session`. -/
inductive AuthType where
  | sms
  | app_push
  | app_qr
deriving DecidableEq, Repr

/-- The string value stored into `self._AUTH_TYPE`. -/
def AuthType.toStr : AuthType → String
  | .sms => "sms"
  | .app_push => "app_push"
  | .app_qr => "app_qr"

/-- Python `s.replace("-", "")`: for the single-character pattern `"-"` this
removes every hyphen. -/
def stripHyphens (s : String) : String :=
  ⟨s.data.filter (fun c => c != '-')⟩

/-- Python `s.isdigit()`: true iff the string is nonempty and every character
is a digit (restricted to ASCII digits, the only ones the flows produce). -/
def pyIsDigit (s : String) : Bool :=
  !s.isEmpty && s.data.all Char.isDigit

/-- Python `s.strip()`: leading and trailing whitespace removed (restricted
to the ASCII whitespace the flows produce). -/
def pyStrip (s : String) : String :=
  ⟨((s.data.dropWhile fun c => c.isWhitespace).reverse.dropWhile
      fun c => c.isWhitespace).reverse⟩

/-- Python slice `s[a:b]`. -/
def pySlice (s : String) (a b : Nat) : String :=
  ⟨(s.data.drop a).take (b - a)⟩

/-- Number of digit characters in a string. -/
def digitCount (s : String) : Nat :=
  s.data.countP (fun c => c.isDigit)

/-- Validator `_verify_input` (PASS_NICE.py lines 564-587): birthdate must have length
6, or length 8 in which case `birthdate[2:8]` is kept; the phone number has
its hyphens removed and the result must have length 11; the captcha answer
must be digits of length 6. Returns the normalized triple or the first
`ValidationError`. -/
def verify_input (birthdate phone_number captcha_answer : String) :
    Except PassErr (String × String × String) :=
  let bd : Except PassErr String :=
    if birthdate.length = 6 then .ok birthdate
    else if birthdate.length = 8 then .ok (pySlice birthdate 2 8)
    else .error (.validation "올바르지 않은 생년월일을 입력하셨습니다.")
  match bd with
  | .error e => .error e
  | .ok b =>
    let pn := stripHyphens phone_number
    if pn.length ≠ 11 then
      .error (.validation "올바르지 않은 휴대전화번호를 입력하셨습니다.")
    else if !pyIsDigit captcha_answer then
      .error (.validation "올바르지 않은 캡챠 코드를 입력하셨습니다.")
    else if captcha_answer.length ≠ 6 then
      .error (.validation "올바르지 않은 캡챠 코드를 입력하셨습니다.")
    else .ok (b, pn, captcha_answer)

/-- Outcome of an operation: what it returned or raised, the state of the
instance afterwards (exceptions leave any mutations made so far in place),
and the network requests it performed. -/
abbrev Outcome (α : Type) := Except PassErr (Result α) × SessionState × List NetReq

/-- Environment for `init_session`: per network call, whether the transport
succeeded, and the `Option String` result of each regex extraction over the
responses. -/
structure InitEnv where
  landingOk : Bool
  m : Option String
  encodeData : Option String
  checkplusOk : Bool
  serviceInfo : Option String
  menuOk : Bool
  methodOk : Bool
  certInfoHash : Option String
  certOk : Bool
  captchaVersion : Option String
deriving DecidableEq, Repr

/-- Operation `init_session` (PASS_NICE.py lines 60-160). Raises
SessionAlreadyInitializedError if the session is initialized, before any
network step. Otherwise: GET the landing page (failure → Network 1); parse
`m` and `EncodeData` (missing → ParseError); POST to checkplus (failure →
Network 3); parse and store `SERVICE_INFO`; POST to the menu and method
endpoints (failure of either → Network 7); parse and store `certInfoHash`;
POST to the certification endpoint (failure → Network 9); for `sms` and
`app_push` parse and store `captchaVersion` (missing → ParseError), for
`app_qr` store the empty string; record the auth type, mark initialized. -/
def init_session (s : SessionState) (auth_type : AuthType) (env : InitEnv) :
    Outcome Unit :=
  if s.is_initialized then
    (.error .sessionAlreadyInitialized, s, [])
  else if !env.landingOk then
    (.error (.network 1), s, [.getLanding])
  else if env.m.isNone then
    (.error (.parse "m 데이터 파싱에 실패했습니다."), s, [.getLanding])
  else if env.encodeData.isNone then
    (.error (.parse "EncodeData 데이터 파싱에 실패했습니다."), s, [.getLanding])
  else if !env.checkplusOk then
    (.error (.network 3), s, [.getLanding, .postCheckplus])
  else
    match env.serviceInfo with
    | none => (.error (.parse "SERVICE_INFO 데이터 파싱에 실패했습니다."), s,
        [.getLanding, .postCheckplus])
    | some si =>
      let s1 := { s with service_info := some si }
      if !env.menuOk then
        (.error (.network 7), s1, [.getLanding, .postCheckplus, .postMenu])
      else if !env.methodOk then
        (.error (.network 7), s1,
         [.getLanding, .postCheckplus, .postMenu, .postMethod])
      else
        match env.certInfoHash with
        | none => (.error (.parse "certInfoHash 데이터 파싱에 실패했습니다."), s1,
            [.getLanding, .postCheckplus, .postMenu, .postMethod])
        | some ch =>
          let s2 := { s1 with cert_info_hash := some ch }
          if !env.certOk then
            (.error (.network 9), s2,
             [.getLanding, .postCheckplus, .postMenu, .postMethod, .postCert])
          else
            match auth_type with
            | .app_qr =>
              (.ok ⟨true, "세션 초기화에 성공했습니다.", none⟩,
               { s2 with captcha_version := some "",
                         auth_type := AuthType.app_qr.toStr,
                         is_initialized := true },
               [.getLanding, .postCheckplus, .postMenu, .postMethod, .postCert])
            | a =>
              match env.captchaVersion with
              | none => (.error (.parse "captchaVersion 데이터 파싱에 실패했습니다."), s2,
                  [.getLanding, .postCheckplus, .postMenu, .postMethod, .postCert])
              | some cv =>
                (.ok ⟨true, "세션 초기화에 성공했습니다.", none⟩,
                 { s2 with captcha_version := some cv,
                           auth_type := a.toStr,
                           is_initialized := true },
                 [.getLanding, .postCheckplus, .postMenu, .postMethod, .postCert])

/-- Environment for `retrieve_captcha`: transport success and image bytes. -/
structure CaptchaEnv where
  ok : Bool
  content : Bytes
deriving DecidableEq, Repr

/-- Operation `retrieve_captcha` (lines 162-187): SessionNotInitializedError unless the
session is initialized and the `_CAPTCHA_VERSION` attribute exists; then GET
the captcha image (failure → Network 1) and return its bytes. -/
def retrieve_captcha (s : SessionState) (env : CaptchaEnv) : Outcome Bytes :=
  if !s.is_initialized || s.captcha_version.isNone then
    (.error (.sessionNotInitialized "캡챠 이미지를 확인하기 위해서는 세션 초기화가 필요합니다."),
     s, [])
  else if !env.ok then
    (.error (.network 1), s, [.getCaptcha])
  else
    (.ok ⟨true, "캡챠 이미지 확인에 성공했습니다.", some env.content⟩, s, [.getCaptcha])

/-- Environment for the two send operations: transport success, whether the
response body is valid JSON, and the `code` and `message` fields of that
JSON (absent fields are `none`; `dict.get` supplies the defaults). -/
structure SendEnv where
  ok : Bool
  jsonValid : Bool
  code : Option String
  message : Option String
deriving DecidableEq, Repr

/-- Operation `send_sms_verification` (lines 190-264): SessionNotInitializedError when
not initialized or when the auth type is not `"sms"`; then `_verify_input`;
then POST to the SMS proc endpoint (reading `self._SERVICE_INFO` for the
header first — AttributeError if unset; transport failure → Network 1; a
non-JSON body makes `.json()` raise uncaught). A response code other than
`"SUCCESS"` returns a failed Result with the response message (or a default)
and mutates nothing. On `"SUCCESS"`, stores `VerificationData` built from
the submitted fields (gender codes 1/3/5/7 → "1", else "2"; the birthdate
string is handed to `datetime.strptime`, abstracted here) and sets the
verify-sent flag. -/
def send_sms_verification (s : SessionState)
    (name birthdate gender phone_number captcha_answer : String)
    (env : SendEnv) : Outcome Unit :=
  if !s.is_initialized then
    (.error (.sessionNotInitialized "SMS 본인인증 요청을 보내기 위해서는 세션 초기화가 필요합니다."),
     s, [])
  else if s.auth_type ≠ "sms" then
    (.error (.sessionNotInitialized "SMS 본인인증 요청을 보내기 위해서는 SMS 방식으로 세션을 초기화해주셔야 합니다."),
     s, [])
  else
    match verify_input birthdate phone_number captcha_answer with
    | .error e => (.error e, s, [])
    | .ok (bd, pn, ca) =>
      if s.service_info.isNone then
        (.error (.attributeError "_SERVICE_INFO"), s, [])
      else if !env.ok then
        (.error (.network 1), s, [.postSmsProc])
      else if !env.jsonValid then
        (.error (.pyError "json"), s, [.postSmsProc])
      else if env.code ≠ some "SUCCESS" then
        (.ok ⟨false, env.message.getD "올바른 본인인증 정보를 입력해주세요.", none⟩,
         s, [.postSmsProc])
      else
        let vd : VerificationData :=
          { name := name
            birthdate := bd
            gender := if ["1", "3", "5", "7"].contains gender then "1" else "2"
            phone_number := pn
            mobile_carrier := s.cell_corp }
        (.ok ⟨true, "휴대폰 본인인증 요청을 성공적으로 전송했습니다.", none⟩,
         { s with verification_data := some vd, is_verify_sent := true },
         [.postSmsProc])

/-- Operation `send_push_verification` (lines 266-324): like the SMS send but the auth
type must be `"app_push"`, `_verify_input` is called with the constant
birthdate `"000000"`, and on `"SUCCESS"` only the verify-sent flag is set
(no `VerificationData` is stored). -/
def send_push_verification (s : SessionState)
    (name phone_number captcha_answer : String) (env : SendEnv) : Outcome Unit :=
  if !s.is_initialized then
    (.error (.sessionNotInitialized "PASS 본인인증 요청을 보내기 위해서는 세션 초기화가 필요합니다."),
     s, [])
  else if s.auth_type ≠ "app_push" then
    (.error (.sessionNotInitialized "PASS 본인인증 요청을 보내기 위해서는 app_push 방식으로 세션을 초기화해주셔야 합니다."),
     s, [])
  else
    match verify_input "000000" phone_number captcha_answer with
    | .error e => (.error e, s, [])
    | .ok _ =>
      if s.service_info.isNone then
        (.error (.attributeError "_SERVICE_INFO"), s, [])
      else if !env.ok then
        (.error (.network 1), s, [.postPushProc])
      else if !env.jsonValid then
        (.error (.pyError "json"), s, [.postPushProc])
      else if env.code ≠ some "SUCCESS" then
        (.ok ⟨false, env.message.getD "올바른 본인인증 정보를 입력해주세요.", none⟩,
         s, [.postPushProc])
      else
        (.ok ⟨true, "PASS 본인인증 요청을 성공적으로 전송했습니다.", none⟩,
         { s with is_verify_sent := true }, [.postPushProc])

/-- Environment for `create_qr_verification`. -/
structure QrEnv where
  ok : Bool
  qrNum : Option String
  imgOk : Bool
  content : Bytes
deriving DecidableEq, Repr

/-- Operation `create_qr_verification` (lines 326-374): no precondition check. Builds
the request from `self._SERVICE_INFO` and `self._CERT_INFO_HASH`
(AttributeError before any request if either is unset), POSTs to the QR
certification endpoint (failure → Network 1), extracts the QR number from
the markup (missing → ParseError), GETs the QR image (failure → Network),
sets the verify-sent flag and returns the number as message with the image
bytes as payload. -/
def create_qr_verification (s : SessionState) (env : QrEnv) : Outcome Bytes :=
  if s.service_info.isNone then
    (.error (.attributeError "_SERVICE_INFO"), s, [])
  else if s.cert_info_hash.isNone then
    (.error (.attributeError "_CERT_INFO_HASH"), s, [])
  else if !env.ok then
    (.error (.network 1), s, [.postQrCert])
  else
    match env.qrNum with
    | none => (.error (.parse "QR코드 번호 데이터 파싱에 실패했습니다."), s, [.postQrCert])
    | some num =>
      if !env.imgOk then
        (.error (.network 1), s, [.postQrCert, .getQrImage])
      else
        (.ok ⟨true, num, some env.content⟩,
         { s with is_verify_sent := true }, [.postQrCert, .getQrImage])

/-- Environment for `check_sms_verification`: transport success, JSON
validity of the confirm response, its `code` and `message` fields. -/
structure ConfirmEnv where
  ok : Bool
  jsonValid : Bool
  code : Option String
  message : Option String
deriving DecidableEq, Repr

/-- Operation `check_sms_verification` (lines 377-437): SessionNotInitializedError
unless initialized with the `_CAPTCHA_VERSION` attribute present; a failed
Result (not an exception) when verification was never sent or the auth type
is not `"sms"`; ValidationError unless the code is 6 digits; POST to the SMS
confirm endpoint (transport failure → Network 2, a JSON decode failure is
caught and re-raised as ParseError). Code `"RETRY"` → failed Result with a
fixed retry message; any other non-`"SUCCESS"` code → failed Result with the
response message (or a default); `"SUCCESS"` → success Result carrying the
stored `self._verification_data` (AttributeError if never stored). The
session state is never mutated. -/
def check_sms_verification (s : SessionState) (sms_code : String)
    (env : ConfirmEnv) : Outcome VerificationData :=
  if !s.is_initialized || s.captcha_version.isNone then
    (.error (.sessionNotInitialized "세션이 초기화되지 않았습니다."), s, [])
  else if !s.is_verify_sent then
    (.ok ⟨false, "아직 인증을 진행하지 않았습니다.", none⟩, s, [])
  else if s.auth_type ≠ "sms" then
    (.ok ⟨false, "현재 세션은 SMS 인증 방식이 아닙니다.", none⟩, s, [])
  else if (pyStrip sms_code).isEmpty || sms_code.length != 6 || !pyIsDigit sms_code then
    (.error (.validation "SMS 코드는 6자리 숫자여야 합니다."), s, [])
  else if s.service_info.isNone then
    (.error (.attributeError "_SERVICE_INFO"), s, [])
  else if !env.ok then
    (.error (.network 2), s, [.postSmsConfirm])
  else if !env.jsonValid then
    (.error (.parse "나이스 응답 데이터 파싱에 실패했습니다."), s, [.postSmsConfirm])
  else if env.code = some "RETRY" then
    (.ok ⟨false, "올바른 인증코드를 입력해주세요.", none⟩, s, [.postSmsConfirm])
  else if env.code ≠ some "SUCCESS" then
    (.ok ⟨false, env.message.getD "인증 확인 도중 문제가 발생하였습니다.", none⟩,
     s, [.postSmsConfirm])
  else
    match s.verification_data with
    | none => (.error (.attributeError "_verification_data"), s, [.postSmsConfirm])
    | some vd => (.ok ⟨true, "본인인증이 완료되었습니다.", some vd⟩, s, [.postSmsConfirm])

/-- Environment for `_get_verification_data`: transport flags for its three
requests and the parse results for the query string and the four scraped
fields. -/
structure GetDataEnv where
  confirmOk : Bool
  resultOk : Bool
  queryString : Option String
  decryptOk : Bool
  name : Option String
  gender : Option String
  birthdate : Option String
  phone : Option String
deriving DecidableEq, Repr

/-- Helper `_get_verification_data` (lines 501-547): POST to the method-specific
confirm endpoint then to the result-dispatch endpoint (failure of either →
Network 1; `self._SERVICE_INFO` is read for the first header —
AttributeError if unset); parse `queryString` (missing → ParseError); GET
the decrypt page (failure → Network 1); scrape the four `form1.X.value`
fields in order NICE_NAME, NICE_GENDER, NICE_BIRTHEDATE, NICE_MOBILENO
(first missing one → ParseError); assemble `VerificationData` (the 8-digit
birthdate string is handed to `datetime.strptime`, abstracted here). -/
def get_verification_data (s : SessionState) (env : GetDataEnv) :
    Except PassErr VerificationData × List NetReq :=
  if s.service_info.isNone then
    (.error (.attributeError "_SERVICE_INFO"), [])
  else if !env.confirmOk then
    (.error (.network 1), [.postConfirmProc])
  else if !env.resultOk then
    (.error (.network 1), [.postConfirmProc, .postResultSend])
  else if env.queryString.isNone then
    (.error (.parse "queryString 데이터 파싱에 실패했습니다."),
     [.postConfirmProc, .postResultSend])
  else if !env.decryptOk then
    (.error (.network 1), [.postConfirmProc, .postResultSend, .getDecrypt])
  else
    match env.name with
    | none => (.error (.parse "NICE_NAME 데이터 파싱에 실패했습니다."),
        [.postConfirmProc, .postResultSend, .getDecrypt])
    | some n =>
      match env.gender with
      | none => (.error (.parse "NICE_GENDER 데이터 파싱에 실패했습니다."),
          [.postConfirmProc, .postResultSend, .getDecrypt])
      | some g =>
        match env.birthdate with
        | none => (.error (.parse "NICE_BIRTHEDATE 데이터 파싱에 실패했습니다."),
            [.postConfirmProc, .postResultSend, .getDecrypt])
        | some b =>
          match env.phone with
          | none => (.error (.parse "NICE_MOBILENO 데이터 파싱에 실패했습니다."),
              [.postConfirmProc, .postResultSend, .getDecrypt])
          | some p =>
            (.ok ⟨n, b, g, p, s.cell_corp⟩,
             [.postConfirmProc, .postResultSend, .getDecrypt])

/-- Environment for `check_push_verification`: the polling request plus the
recovery sub-protocol's environment. -/
structure PushEnv where
  ok : Bool
  jsonValid : Bool
  code : Option String
  gd : GetDataEnv
deriving DecidableEq, Repr

/-- Operation `check_push_verification` (lines 439-480): SessionNotInitializedError
unless initialized with the `_CAPTCHA_VERSION` attribute present; a failed
Result when verification was never sent or the auth type is neither
`"app_push"` nor `"app_qr"`; POST to the polling endpoint (failure →
Network 1; a non-JSON body makes `.json()` raise uncaught). A response
`code` other than `"0000"` (with `"0001"` as the default for a missing
field) → failed Result stating the user has not confirmed yet; `"0000"` →
run `_get_verification_data` and return its data in a success Result. -/
def check_push_verification (s : SessionState) (env : PushEnv) :
    Outcome VerificationData :=
  if !s.is_initialized || s.captcha_version.isNone then
    (.error (.sessionNotInitialized "세션이 초기화되지 않았습니다."), s, [])
  else if !s.is_verify_sent then
    (.ok ⟨false, "아직 인증을 진행하지 않았습니다.", none⟩, s, [])
  else if !(["app_push", "app_qr"].contains s.auth_type) then
    (.ok ⟨false, "현재 세션은 PASS 앱 인증 방식이 아닙니다.", none⟩, s, [])
  else if s.service_info.isNone then
    (.error (.attributeError "_SERVICE_INFO"), s, [])
  else if !env.ok then
    (.error (.network 1), s, [.postPushCheck])
  else if !env.jsonValid then
    (.error (.pyError "json"), s, [.postPushCheck])
  else if env.code.getD "0001" ≠ "0000" then
    (.ok ⟨false, "아직 유저가 인증을 진행하지 않았습니다.", none⟩, s, [.postPushCheck])
  else
    match get_verification_data s env.gd with
    | (.error e, log) => (.error e, s, .postPushCheck :: log)
    | (.ok vd, log) =>
      (.ok ⟨true, "본인인증이 완료되었습니다.", some vd⟩, s, .postPushCheck :: log)

/-- Operation `check_qr_verification` (lines 482-499): calls
`check_push_verification` and returns its result unchanged. -/
def check_qr_verification (s : SessionState) (env : PushEnv) :
    Outcome VerificationData :=
  check_push_verification s env

/-! ## Theorems -/

/-- On a string made of digits and hyphens, removing the hyphens leaves
exactly the digit characters. -/
lemma length_filter_ne_hyphen (l : List Char)
    (h : ∀ c ∈ l, c.isDigit = true ∨ c = '-') :
    (l.filter (fun c => c != '-')).length = l.countP (fun c => c.isDigit) := by
  induction l with
  | nil => rfl
  | cons c l ih =>
    have hc := h c (by simp)
    have ih' := ih (fun c hc => h c (by simp [hc]))
    rcases hc with hd | hh
    · have hne : (c != '-') = true := by
        rw [bne_iff_ne]
        intro he
        rw [he] at hd
        exact absurd hd (by decide)
      simp [List.filter_cons, List.countP_cons, hne, hd, ih']
    · subst hh
      simp [List.filter_cons, List.countP_cons, ih']

/-- Example evaluation: the validator on concrete inputs. -/
example : verify_input "000101" "010-1234-5678" "123456" =
    .ok ("000101", "01012345678", "123456") := rfl

/-- C1: for phone inputs over digits and hyphens, `_verify_input` (as used
by `send_sms_verification` and `send_push_verification`) strips hyphens and
returns an 11-character phone number exactly when the input has 11 digits,
and raises ValidationError for any other digit count. The other two
arguments are fixed at valid values to isolate the phone check. -/
theorem C1_phone_normalization (phone : String)
    (h : ∀ c ∈ phone.data, c.isDigit = true ∨ c = '-') :
    (digitCount phone = 11 →
      verify_input "000101" phone "123456" =
        .ok ("000101", stripHyphens phone, "123456") ∧
      (stripHyphens phone).length = 11) ∧
    (digitCount phone ≠ 11 →
      verify_input "000101" phone "123456" =
        .error (.validation "올바르지 않은 휴대전화번호를 입력하셨습니다.")) := by
  have key : (stripHyphens phone).length = digitCount phone := by
    simpa [stripHyphens, digitCount, String.length] using
      length_filter_ne_hyphen phone.data h
  have b6 : ("000101" : String).length = 6 := by decide
  have pd : pyIsDigit "123456" = true := by decide
  have c6 : ("123456" : String).length = 6 := by decide
  constructor
  · intro h11
    constructor
    · simp [verify_input, key, h11, b6, pd, c6]
    · rw [key, h11]
  · intro h11
    simp [verify_input, key, h11, b6]

/-- Witness for C1 at the concrete inputs `"010-1234-5678"` (11 digits) and
`"010-1234-56789"` (12 digits). -/
theorem C1_phone_normalization_witness :
    (verify_input "000101" "010-1234-5678" "123456" =
        .ok ("000101", "01012345678", "123456")) ∧
    (verify_input "000101" "010-1234-56789" "123456" =
        .error (.validation "올바르지 않은 휴대전화번호를 입력하셨습니다.")) := by
  refine ⟨?_, ?_⟩
  · have := (C1_phone_normalization "010-1234-5678" (by decide)).1 (by decide)
    simpa [stripHyphens] using this.1
  · exact (C1_phone_normalization "010-1234-56789" (by decide)).2 (by decide)

/-- C2 counterexample: the birthdate `"abcdef"` is not a 6-digit date (it
contains no digit at all), yet `_verify_input` accepts it and returns it
unchanged instead of raising a Validation error: only the length is
checked. -/
theorem C2_birthdate_counterexample :
    verify_input "abcdef" "01012345678" "123456" =
        .ok ("abcdef", "01012345678", "123456") ∧
    "abcdef".data.all Char.isDigit = false :=
  ⟨rfl, by decide⟩

/-- C2 amended: the birthdate check of `_verify_input` looks only at the
length: a length-6 input is returned unchanged, a length-8 input is
converted by dropping its first two characters (`birthdate[2:8]`), and any
other length raises a Validation error; digit content is never examined.
The other two arguments are fixed at valid values to isolate the birthdate
check. -/
theorem C2_birthdate_length_only (b : String) :
    verify_input b "01012345678" "123456" =
      (if b.length = 6 then .ok (b, "01012345678", "123456")
       else if b.length = 8 then .ok (pySlice b 2 8, "01012345678", "123456")
       else .error (.validation "올바르지 않은 생년월일을 입력하셨습니다.")) := by
  have ps : stripHyphens "01012345678" = "01012345678" := rfl
  have l11 : ("01012345678" : String).length = 11 := by decide
  have pd : pyIsDigit "123456" = true := by decide
  have c6 : ("123456" : String).length = 6 := by decide
  by_cases hb : b.length = 6
  · simp [verify_input, hb, ps, l11, pd, c6]
  · by_cases h8 : b.length = 8
    · simp [verify_input, hb, h8, ps, l11, pd, c6]
    · simp [verify_input, hb, h8]

/-- A concrete environment in which every network call of `init_session`
succeeds and every extraction matches except `captchaVersion` (absent, as on
the QR page). -/
def initEnvOk : InitEnv :=
  ⟨true, some "m0", some "E0", true, some "SI0", true, true, some "CH0", true, none⟩

/-- A session that has been (marked) initialized. -/
def initializedState : SessionState :=
  { mkSession "SK" with is_initialized := true }

/-- C3 counterexample: a session initialized with method `app_qr` has its
`_CAPTCHA_VERSION` attribute set (to the empty string), so
`retrieve_captcha` does not fail with a SessionState error: it proceeds to
the image request and succeeds. -/
theorem C3_qr_captcha_counterexample :
    (init_session (mkSession "SK") .app_qr initEnvOk).1 =
        .ok ⟨true, "세션 초기화에 성공했습니다.", none⟩ ∧
    retrieve_captcha (init_session (mkSession "SK") .app_qr initEnvOk).2.1
        ⟨true, [0]⟩ =
      (.ok ⟨true, "캡챠 이미지 확인에 성공했습니다.", some [0]⟩,
       (init_session (mkSession "SK") .app_qr initEnvOk).2.1, [.getCaptcha]) :=
  ⟨rfl, rfl⟩

/-- C3 amended: `retrieve_captcha` fails with a SessionState error exactly
when the session is not initialized or the `_CAPTCHA_VERSION` attribute is
absent. A session successfully initialized with `app_qr` has the attribute
set to the empty string, so `retrieve_captcha` never fails with a
SessionState error there; it proceeds to the captcha image request. -/
theorem C3_retrieve_captcha_guard (s : SessionState) (cenv : CaptchaEnv)
    (env : InitEnv) :
    ((!s.is_initialized || s.captcha_version.isNone) = true →
        retrieve_captcha s cenv =
          (.error (.sessionNotInitialized
            "캡챠 이미지를 확인하기 위해서는 세션 초기화가 필요합니다."), s, [])) ∧
    (∀ r s1 log, init_session s .app_qr env = (.ok r, s1, log) →
        s1.captcha_version = some "" ∧ s1.is_initialized = true ∧
        ∀ m, (retrieve_captcha s1 cenv).1 ≠
          .error (.sessionNotInitialized m)) := by
  constructor
  · intro hcond
    simp [retrieve_captcha, hcond]
  · intro r s1 log hok
    unfold init_session at hok
    repeat' split at hok
    all_goals simp at hok
    all_goals obtain ⟨hr, hs, hl⟩ := hok
    all_goals subst hs
    all_goals refine ⟨rfl, rfl, ?_⟩
    all_goals intro m
    all_goals by_cases hco : cenv.ok <;> simp [retrieve_captcha, hco]

/-- Witness for C3 amended: a fresh session is rejected with the
SessionState error, and a successful `app_qr` initialization leaves the
captcha version set to the empty string. -/
theorem C3_retrieve_captcha_guard_witness :
    retrieve_captcha (mkSession "SK") ⟨true, [0]⟩ =
      (.error (.sessionNotInitialized
        "캡챠 이미지를 확인하기 위해서는 세션 초기화가 필요합니다."), mkSession "SK", []) ∧
    (init_session (mkSession "SK") .app_qr initEnvOk).2.1.captcha_version =
      some "" := by
  constructor
  · exact (C3_retrieve_captcha_guard (mkSession "SK") ⟨true, [0]⟩ initEnvOk).1
      (by decide)
  · exact ((C3_retrieve_captcha_guard (mkSession "SK") ⟨true, [0]⟩ initEnvOk).2
      ⟨true, "세션 초기화에 성공했습니다.", none⟩
      (init_session (mkSession "SK") .app_qr initEnvOk).2.1
      (init_session (mkSession "SK") .app_qr initEnvOk).2.2 rfl).1

/-- C4: `init_session` on an already-initialized session raises
SessionAlreadyInitializedError, mutates nothing and performs no network
request, whatever the requested method and environment. -/
theorem C4_reinit_rejected (s : SessionState) (a : AuthType) (env : InitEnv)
    (h : s.is_initialized = true) :
    init_session s a env = (.error .sessionAlreadyInitialized, s, []) := by
  simp [init_session, h]

/-- Witness for C4 at a concrete initialized session. -/
theorem C4_reinit_rejected_witness :
    init_session initializedState .sms initEnvOk =
      (.error .sessionAlreadyInitialized, initializedState, []) :=
  C4_reinit_rejected initializedState .sms initEnvOk rfl

/-- C5: `send_sms_verification` raises SessionNotInitializedError on an
uninitialized session, and on a session initialized with a method other
than `"sms"`, for every choice of identity-field arguments; no network
request is made and nothing is mutated. -/
theorem C5_send_sms_preconditions (s : SessionState)
    (name bd g ph ca : String) (env : SendEnv) :
    (s.is_initialized = false →
       send_sms_verification s name bd g ph ca env =
         (.error (.sessionNotInitialized
           "SMS 본인인증 요청을 보내기 위해서는 세션 초기화가 필요합니다."), s, [])) ∧
    (s.is_initialized = true → s.auth_type ≠ "sms" →
       send_sms_verification s name bd g ph ca env =
         (.error (.sessionNotInitialized
           "SMS 본인인증 요청을 보내기 위해서는 SMS 방식으로 세션을 초기화해주셔야 합니다."), s, [])) := by
  constructor
  · intro h0
    simp [send_sms_verification, h0]
  · intro h1 h2
    simp [send_sms_verification, h1, h2]

/-- A session ready for the SMS-confirm step: initialized as `"sms"`,
verification sent, data stored. -/
def smsReadyState : SessionState :=
  { mkSession "SK" with
    is_initialized := true
    is_verify_sent := true
    auth_type := "sms"
    service_info := some "SI0"
    cert_info_hash := some "CH0"
    captcha_version := some "CV0"
    verification_data := some ⟨"홍길동", "000101", "1", "01012345678", "SK"⟩ }

/-- A session initialized with `"app_push"`, verification sent. -/
def pushReadyState : SessionState :=
  { mkSession "SK" with
    is_initialized := true
    is_verify_sent := true
    auth_type := "app_push"
    service_info := some "SI0"
    cert_info_hash := some "CH0"
    captcha_version := some "CV0" }

/-- Witness for C5: the uninitialized case and the `app_push` case. -/
theorem C5_send_sms_preconditions_witness :
    send_sms_verification (mkSession "SK") "홍길동" "000101" "1" "01012345678"
        "123456" ⟨true, true, some "SUCCESS", none⟩ =
      (.error (.sessionNotInitialized
        "SMS 본인인증 요청을 보내기 위해서는 세션 초기화가 필요합니다."), mkSession "SK", []) ∧
    send_sms_verification pushReadyState "홍길동" "000101" "1" "01012345678"
        "123456" ⟨true, true, some "SUCCESS", none⟩ =
      (.error (.sessionNotInitialized
        "SMS 본인인증 요청을 보내기 위해서는 SMS 방식으로 세션을 초기화해주셔야 합니다."), pushReadyState, []) :=
  ⟨(C5_send_sms_preconditions (mkSession "SK") "홍길동" "000101" "1" "01012345678"
      "123456" ⟨true, true, some "SUCCESS", none⟩).1 rfl,
   (C5_send_sms_preconditions pushReadyState "홍길동" "000101" "1" "01012345678"
      "123456" ⟨true, true, some "SUCCESS", none⟩).2 rfl (by decide)⟩

/-- C6: once the SMS-confirm request is reached, a provider response with
code `"RETRY"` yields a failed Result with a fixed retry message and no
payload (not an exception), and any other non-`"SUCCESS"` code yields a
failed Result carrying the provider's message (or the default) and no
payload; the state is unchanged either way. -/
theorem C6_sms_confirm_soft_failure (s : SessionState) (code : String)
    (env : ConfirmEnv)
    (h1 : s.is_initialized = true) (h2 : s.captcha_version.isNone = false)
    (h3 : s.is_verify_sent = true) (h4 : s.auth_type = "sms")
    (h5 : ((pyStrip code).isEmpty || code.length != 6 || !pyIsDigit code) = false)
    (h6 : s.service_info.isNone = false)
    (h7 : env.ok = true) (h8 : env.jsonValid = true) :
    (env.code = some "RETRY" →
       check_sms_verification s code env =
         (.ok ⟨false, "올바른 인증코드를 입력해주세요.", none⟩, s, [.postSmsConfirm])) ∧
    (env.code ≠ some "SUCCESS" → env.code ≠ some "RETRY" →
       check_sms_verification s code env =
         (.ok ⟨false, env.message.getD "인증 확인 도중 문제가 발생하였습니다.", none⟩,
          s, [.postSmsConfirm])) := by
  constructor
  · intro hc
    simp [check_sms_verification, h1, h2, h3, h4, h5, h6, h7, h8, hc]
  · intro hns hnr
    simp [check_sms_verification, h1, h2, h3, h4, h5, h6, h7, h8, hns, hnr]

/-- Witness for C6: a `"RETRY"` response and an `"ERROR"` response against a
ready SMS session. -/
theorem C6_sms_confirm_soft_failure_witness :
    check_sms_verification smsReadyState "123456" ⟨true, true, some "RETRY", none⟩ =
      (.ok ⟨false, "올바른 인증코드를 입력해주세요.", none⟩, smsReadyState,
       [.postSmsConfirm]) ∧
    check_sms_verification smsReadyState "123456"
        ⟨true, true, some "ERROR", some "원통신사 오류"⟩ =
      (.ok ⟨false, "원통신사 오류", none⟩, smsReadyState, [.postSmsConfirm]) :=
  ⟨(C6_sms_confirm_soft_failure smsReadyState "123456"
      ⟨true, true, some "RETRY", none⟩ rfl rfl rfl rfl (by decide) rfl rfl rfl).1 rfl,
   (C6_sms_confirm_soft_failure smsReadyState "123456"
      ⟨true, true, some "ERROR", some "원통신사 오류"⟩ rfl rfl rfl rfl (by decide)
      rfl rfl rfl).2 (by decide) (by decide)⟩

set_option maxHeartbeats 2000000 in
/-- C7: every Result a public operation returns with the success flag false
carries no payload: soft failures never attach image bytes or
VerificationData. -/
theorem C7_failed_results_have_no_payload :
    (∀ s a env r s2 log, init_session s a env = (.ok r, s2, log) →
        r.success = false → r.data = none) ∧
    (∀ s env r s2 log, retrieve_captcha s env = (.ok r, s2, log) →
        r.success = false → r.data = none) ∧
    (∀ s n b g p c env r s2 log,
        send_sms_verification s n b g p c env = (.ok r, s2, log) →
        r.success = false → r.data = none) ∧
    (∀ s n p c env r s2 log,
        send_push_verification s n p c env = (.ok r, s2, log) →
        r.success = false → r.data = none) ∧
    (∀ s env r s2 log, create_qr_verification s env = (.ok r, s2, log) →
        r.success = false → r.data = none) ∧
    (∀ s code env r s2 log,
        check_sms_verification s code env = (.ok r, s2, log) →
        r.success = false → r.data = none) ∧
    (∀ s env r s2 log, check_push_verification s env = (.ok r, s2, log) →
        r.success = false → r.data = none) ∧
    (∀ s env r s2 log, check_qr_verification s env = (.ok r, s2, log) →
        r.success = false → r.data = none) := by
  refine ⟨?_, ?_, ?_, ?_, ?_, ?_, ?_, ?_⟩
  · intro s a env r s2 log h hf
    unfold init_session at h
    repeat' split at h
    all_goals simp only [Prod.mk.injEq, Except.ok.injEq] at h
    all_goals first
      | (obtain ⟨h1, h2, h3⟩ := h
         subst h1
         first
           | rfl
           | simp at hf)
      | simp_all
  · intro s env r s2 log h hf
    unfold retrieve_captcha at h
    repeat' split at h
    all_goals simp only [Prod.mk.injEq, Except.ok.injEq] at h
    all_goals first
      | (obtain ⟨h1, h2, h3⟩ := h
         subst h1
         first
           | rfl
           | simp at hf)
      | simp_all
  · intro s n b g p c env r s2 log h hf
    unfold send_sms_verification at h
    repeat' split at h
    all_goals simp only [Prod.mk.injEq, Except.ok.injEq] at h
    all_goals first
      | (obtain ⟨h1, h2, h3⟩ := h
         subst h1
         first
           | rfl
           | simp at hf)
      | simp_all
  · intro s n p c env r s2 log h hf
    unfold send_push_verification at h
    repeat' split at h
    all_goals simp only [Prod.mk.injEq, Except.ok.injEq] at h
    all_goals first
      | (obtain ⟨h1, h2, h3⟩ := h
         subst h1
         first
           | rfl
           | simp at hf)
      | simp_all
  · intro s env r s2 log h hf
    unfold create_qr_verification at h
    repeat' split at h
    all_goals simp only [Prod.mk.injEq, Except.ok.injEq] at h
    all_goals first
      | (obtain ⟨h1, h2, h3⟩ := h
         subst h1
         first
           | rfl
           | simp at hf)
      | simp_all
  · intro s code env r s2 log h hf
    unfold check_sms_verification at h
    repeat' split at h
    all_goals simp only [Prod.mk.injEq, Except.ok.injEq] at h
    all_goals first
      | (obtain ⟨h1, h2, h3⟩ := h
         subst h1
         first
           | rfl
           | simp at hf)
      | simp_all
  · intro s env r s2 log h hf
    unfold check_push_verification at h
    repeat' split at h
    all_goals simp only [Prod.mk.injEq, Except.ok.injEq] at h
    all_goals first
      | (obtain ⟨h1, h2, h3⟩ := h
         subst h1
         first
           | rfl
           | simp at hf)
      | simp_all
  · intro s env r s2 log h hf
    unfold check_qr_verification check_push_verification at h
    repeat' split at h
    all_goals simp only [Prod.mk.injEq, Except.ok.injEq] at h
    all_goals first
      | (obtain ⟨h1, h2, h3⟩ := h
         subst h1
         first
           | rfl
           | simp at hf)
      | simp_all

/-- Witness for C7: the soft failure of `check_sms_verification` on a
session where verification was never sent has no payload. -/
theorem C7_failed_results_have_no_payload_witness :
    (⟨false, "아직 인증을 진행하지 않았습니다.", none⟩ :
      Result VerificationData).data = none :=
  C7_failed_results_have_no_payload.2.2.2.2.2.1
    { mkSession "SK" with is_initialized := true, captcha_version := some "CV0" }
    "123456" ⟨true, true, some "SUCCESS", none⟩
    ⟨false, "아직 인증을 진행하지 않았습니다.", none⟩
    { mkSession "SK" with is_initialized := true, captcha_version := some "CV0" }
    [] rfl rfl

/-- C8: `check_qr_verification` delegates to `check_push_verification` and
returns its result unchanged; on every session state and every provider
response the two produce the same outcome, the same final state and the
same network requests. -/
theorem C8_qr_check_is_push_check (s : SessionState) (env : PushEnv) :
    check_qr_verification s env = check_push_verification s env := rfl

/-- C9: when the provider answers the send request with a status other than
`"SUCCESS"`, both send operations return a failed Result with the
provider's message (or the default), the session state — in particular the
verify-sent flag and the stored verification data — being exactly the state
before the call. -/
theorem C9_send_soft_failure_is_atomic :
    (∀ s name bd g ph ca env, s.is_initialized = true → s.auth_type = "sms" →
       (∃ t, verify_input bd ph ca = .ok t) →
       s.service_info.isNone = false →
       env.ok = true → env.jsonValid = true → env.code ≠ some "SUCCESS" →
       send_sms_verification s name bd g ph ca env =
         (.ok ⟨false, env.message.getD "올바른 본인인증 정보를 입력해주세요.", none⟩,
          s, [.postSmsProc])) ∧
    (∀ s name ph ca env, s.is_initialized = true → s.auth_type = "app_push" →
       (∃ t, verify_input "000000" ph ca = .ok t) →
       s.service_info.isNone = false →
       env.ok = true → env.jsonValid = true → env.code ≠ some "SUCCESS" →
       send_push_verification s name ph ca env =
         (.ok ⟨false, env.message.getD "올바른 본인인증 정보를 입력해주세요.", none⟩,
          s, [.postPushProc])) := by
  constructor
  · intro s name bd g ph ca env h1 h2 hv h3 h4 h5 h6
    obtain ⟨t, ht⟩ := hv
    simp [send_sms_verification, h1, h2, ht, h3, h4, h5, h6]
  · intro s name ph ca env h1 h2 hv h3 h4 h5 h6
    obtain ⟨t, ht⟩ := hv
    simp [send_push_verification, h1, h2, ht, h3, h4, h5, h6]

/-- A session initialized with `"sms"`, verification not yet sent. -/
def smsInitState : SessionState :=
  { mkSession "SK" with
    is_initialized := true
    auth_type := "sms"
    service_info := some "SI0"
    cert_info_hash := some "CH0"
    captcha_version := some "CV0" }

/-- A session initialized with `"app_push"`, verification not yet sent. -/
def pushInitState : SessionState :=
  { mkSession "SK" with
    is_initialized := true
    auth_type := "app_push"
    service_info := some "SI0"
    cert_info_hash := some "CH0"
    captcha_version := some "CV0" }

/-- Witness for C9: a rejected SMS send and a rejected push send both leave
the session state untouched. -/
theorem C9_send_soft_failure_is_atomic_witness :
    send_sms_verification smsInitState "홍길동" "000101" "1" "01012345678"
        "123456" ⟨true, true, some "BLOCK", some "차단된 번호입니다."⟩ =
      (.ok ⟨false, "차단된 번호입니다.", none⟩, smsInitState, [.postSmsProc]) ∧
    send_push_verification pushInitState "홍길동" "01012345678" "123456"
        ⟨true, true, none, none⟩ =
      (.ok ⟨false, "올바른 본인인증 정보를 입력해주세요.", none⟩, pushInitState,
       [.postPushProc]) :=
  ⟨C9_send_soft_failure_is_atomic.1 smsInitState "홍길동" "000101" "1"
      "01012345678" "123456" ⟨true, true, some "BLOCK", some "차단된 번호입니다."⟩
      rfl rfl ⟨_, rfl⟩ rfl rfl rfl (by decide),
   C9_send_soft_failure_is_atomic.2 pushInitState "홍길동" "01012345678"
      "123456" ⟨true, true, none, none⟩
      rfl rfl ⟨_, rfl⟩ rfl rfl rfl (by decide)⟩

/-- An environment in which both QR requests succeed and the QR number
parses. -/
def qrEnvOk : QrEnv := ⟨true, some "123456", true, [7]⟩

/-- C10 counterexample: on a freshly constructed (uninitialized) session the
tokens were never assigned, so `create_qr_verification` fails reading
`self._SERVICE_INFO` before any network request is made — it does not
proceed to the network request (though the failure is indeed not a
SessionState error). -/
theorem C10_create_qr_counterexample :
    create_qr_verification (mkSession "SK") qrEnvOk =
      (.error (.attributeError "_SERVICE_INFO"), mkSession "SK", []) := rfl

/-- C10 amended: `create_qr_verification` performs no session-state
precondition check and never fails with a SessionState error, on any
session state; when the service-info and cert tokens have been set it
proceeds directly to the QR certification request, and when a token is
unset it fails with an attribute access error before any request. -/
theorem C10_create_qr_no_state_guard (s : SessionState) (env : QrEnv) :
    (∀ e, (create_qr_verification s env).1 = .error e →
        e.isSessionState = false) ∧
    (s.service_info.isNone = false → s.cert_info_hash.isNone = false →
        (create_qr_verification s env).2.2.head? = some .postQrCert) := by
  constructor
  · intro e he
    unfold create_qr_verification at he
    repeat' split at he
    all_goals try dsimp only at he
    all_goals first
      | (rw [Except.error.injEq] at he; subst he; rfl)
      | simp_all
  · intro h1 h2
    by_cases ho : env.ok
    · cases hq : env.qrNum with
      | none => simp [create_qr_verification, h1, h2, ho, hq]
      | some num =>
        by_cases hi : env.imgOk <;>
          simp [create_qr_verification, h1, h2, ho, hq, hi]
    · simp [create_qr_verification, h1, h2, ho]

/-- Witness for C10 amended: an unset token gives an attribute error (not a
SessionState error), and a session with tokens set goes straight to the QR
certification request. -/
theorem C10_create_qr_no_state_guard_witness :
    PassErr.isSessionState (.attributeError "_SERVICE_INFO") = false ∧
    (create_qr_verification smsInitState qrEnvOk).2.2.head? =
      some .postQrCert :=
  ⟨(C10_create_qr_no_state_guard (mkSession "SK") qrEnvOk).1
      (.attributeError "_SERVICE_INFO") rfl,
   (C10_create_qr_no_state_guard smsInitState qrEnvOk).2 rfl rfl⟩

end PassNice
